import Mathlib

/-!
Shallow embedding of the MRF24WG RAW (Random Access Window) controller,
`sys/mips/dev/mrf24g/wf_raw.c`.

The module's own mutable state is two process-wide variables:
`g_RawIndexPastEnd` (a `u_int8_t` bitmask with one out-of-bounds flag bit
per RAW window) and `RawWindowState` (a two-byte array tracking whether
the data-Rx and data-Tx windows are mounted).  Everything else the code
touches is chip hardware reached through the `mrf_*` register primitives;
those reads are modelled as explicit input parameters (the value a read
returns) and the polling loops as lists of successive observations
`(register value, elapsed time)`.

Register addresses, interrupt-bit constants and the symbolic IDs below
come from headers (`wf_universal_driver.h`, `wf_global_includes.h`) that
are not part of the given sources; their values are modelled from the
spec where they matter and are otherwise arbitrary distinct tags.
-/

/-- Modelled from the spec: RAW window IDs from the missing header
`wf_universal_driver.h`.  The source fixes `RAW_DATA_RX_ID = 0` and
`RAW_DATA_TX_ID = 1` (the comment on `RawWindowState` says index 0 is the
Rx window and index 1 the Tx window, and `SetRawDataWindowState` indexes
that two-entry array directly with the ID); the management and scratch
windows are the remaining IDs 2..5 per `WaitForRawMoveComplete`'s
comments. -/
def RAW_DATA_RX_ID : Nat := 0

/-- Modelled from the spec: see `RAW_DATA_RX_ID`. -/
def RAW_DATA_TX_ID : Nat := 1

/-- Modelled from the spec: see `RAW_DATA_RX_ID`. -/
def RAW_MGMT_RX_ID : Nat := 2

/-- Modelled from the spec: see `RAW_DATA_RX_ID`. -/
def RAW_MGMT_TX_ID : Nat := 3

/-- Modelled from the spec: see `RAW_DATA_RX_ID`. -/
def RAW_SCRATCH_ID : Nat := 4

/-- Modelled from the spec: pool selector constants from the missing
header.  The spec places the pool selector in the upper byte of the move
control value and the source comment says the defines are already
shifted by 4 bits, i.e. each selector is a distinct value with a zero
low nibble, below 0x80. -/
def RAW_MAC : Nat := 0x00

/-- Modelled from the spec: see `RAW_MAC`. -/
def RAW_MGMT_POOL : Nat := 0x10

/-- Modelled from the spec: see `RAW_MAC`. -/
def RAW_DATA_POOL : Nat := 0x20

/-- Modelled from the spec: see `RAW_MAC`. -/
def RAW_SCRATCH_POOL : Nat := 0x30

/-- Modelled from the spec: mask applied to the chip's FIFO byte-count
registers; the size fields of this interface are 12-bit, so the
available-byte counters are masked to 12 bits. -/
def FIFO_BCNT_MASK : Nat := 0x0fff

/-- Modelled from the spec: window mount states from the missing header;
two-valued (unmounted / mounted), exact numeric values immaterial. -/
def WF_RAW_UNMOUNTED : Nat := 0

/-- Modelled from the spec: see `WF_RAW_UNMOUNTED`. -/
def WF_RAW_DATA_MOUNTED : Nat := 1

/-- Modelled from the spec: interrupt bits of the 8-bit host interrupt
register; windows 0 and 1 have individual bits, and one shared
"secondary interrupt pending" bit (`INTR_INT2`) covers windows 2..5.
Exact bit positions come from the missing register header; they are
distinct nonzero bits. -/
def INTR_RAW0 : Nat := 0x02

/-- Modelled from the spec: see `INTR_RAW0`. -/
def INTR_RAW1 : Nat := 0x04

/-- Modelled from the spec: see `INTR_RAW0`. -/
def INTR_INT2 : Nat := 0x01

/-- `WF_RAW_STATUS_REG_BUSY_MASK` from `wf_raw.c`. -/
def WF_RAW_STATUS_REG_BUSY_MASK : Nat := 0x0001

/-- Modelled from the spec: the per-window data register addresses
`g_RawDataReg` (the `MRF24_REG_RAWi_DATA` values live in the missing
register header; they are distinct tags, one per window). -/
def g_RawDataReg (rawId : Nat) : Nat := 0x20 + rawId

/-- `g_RawAccessOutOfBoundsMask` from `wf_raw.c`: one bit per RAW window,
`{0x01, 0x02, 0x04, 0x08, 0x10, 0x20}`.  IDs ≥ 6 index past the end of
the C array (undefined behaviour); the model returns 0 there and all
theorems restrict window IDs to 0..5. -/
def g_RawAccessOutOfBoundsMask : Nat → Nat
  | 0 => 0x01
  | 1 => 0x02
  | 2 => 0x04
  | 3 => 0x08
  | 4 => 0x10
  | 5 => 0x20
  | _ => 0

/-- The module's process-wide mutable state: the out-of-bounds flag
bitmask `g_RawIndexPastEnd` and the two entries of `RawWindowState`
(`[0]` is the RAW data-Rx window, `[1]` the RAW data-Tx window). -/
structure RawState where
  g_RawIndexPastEnd : Nat
  rawRxWindowState : Nat
  rawTxWindowState : Nat
deriving DecidableEq, Repr

/-- Initial module state: `g_RawIndexPastEnd = 0` ("no indexes are past
end of window"), both data windows unmounted (as established by
`RawInit`). -/
def initRawState : RawState :=
  { g_RawIndexPastEnd := 0
    rawRxWindowState := WF_RAW_UNMOUNTED
    rawTxWindowState := WF_RAW_UNMOUNTED }

/-- Macro `SetIndexOutOfBoundsFlag(rawId)`:
`g_RawIndexPastEnd |= g_RawAccessOutOfBoundsMask[rawId]`, stored back
into the 8-bit variable. -/
def SetIndexOutOfBoundsFlag (rawId : Nat) (s : RawState) : RawState :=
  { s with g_RawIndexPastEnd :=
      (s.g_RawIndexPastEnd ||| g_RawAccessOutOfBoundsMask rawId) &&& 0xff }

/-- Macro `ClearIndexOutOfBoundsFlag(rawId)`:
`g_RawIndexPastEnd &= ~g_RawAccessOutOfBoundsMask[rawId]`; the bitwise
complement of the promoted mask truncated to the 8-bit variable is
`0xff ^^^ mask`. -/
def ClearIndexOutOfBoundsFlag (rawId : Nat) (s : RawState) : RawState :=
  { s with g_RawIndexPastEnd :=
      s.g_RawIndexPastEnd &&& (0xff ^^^ g_RawAccessOutOfBoundsMask rawId) }

/-- Macro `isIndexOutOfBounds(rawId)`:
`(g_RawIndexPastEnd & g_RawAccessOutOfBoundsMask[rawId]) > 0`. -/
def isIndexOutOfBounds (rawId : Nat) (s : RawState) : Bool :=
  decide (0 < s.g_RawIndexPastEnd &&& g_RawAccessOutOfBoundsMask rawId)

/-- `SetRawDataWindowState(rawId, state)`: writes `RawWindowState[rawId]`.
The C array has two entries and the function is only ever called with
the data-Rx (0) and data-Tx (1) IDs; other IDs are out of bounds in C
and are modelled as a no-op. -/
def SetRawDataWindowState (rawId state : Nat) (s : RawState) : RawState :=
  if rawId = 0 then { s with rawRxWindowState := state }
  else if rawId = 1 then { s with rawTxWindowState := state }
  else s

/-- `GetRawDataWindowState(rawId)`: reads `RawWindowState[rawId]`. -/
def GetRawDataWindowState (rawId : Nat) (s : RawState) : Nat :=
  if rawId = 0 then s.rawRxWindowState
  else if rawId = 1 then s.rawTxWindowState
  else 0

/-- Outcome of the status-polling loop in `RawSetIndex`. -/
inductive SetIndexOutcome where
  | completed
  | timedOut
deriving DecidableEq, Repr

/-- The polling loop of `RawSetIndex` over the successive hardware
observations: each iteration reads the window's status register
(`regValue`) and, if the busy bit is still set, checks
`mrf_timer_elapsed(start_time) > 5`.  A list too short to decide the
loop corresponds to no real execution (hardware elapsed time grows
without bound, so the loop always exits) and yields `none`. -/
def pollStatus : List (Nat × Nat) → Option SetIndexOutcome
  | [] => none
  | (regValue, elapsed) :: rest =>
    if regValue &&& WF_RAW_STATUS_REG_BUSY_MASK = 0 then some .completed
    else if 5 < elapsed then some .timedOut
    else pollStatus rest

/-- `RawSetIndex(rawId, index)`: writes `index` to the window's index
register (hardware-only effect), then polls the status register.  On
clean completion it clears the window's out-of-bounds flag; on timeout
it sets the flag (and prints a diagnostic).  `polls` is the list of
`(status register value, elapsed time)` observations; an undecided poll
list is a model artifact and leaves the state unchanged. -/
def RawSetIndex (rawId : Nat) (index : Nat) (polls : List (Nat × Nat))
    (s : RawState) : RawState :=
  match pollStatus polls with
  | some .completed => ClearIndexOutOfBoundsFlag rawId s
  | some .timedOut => SetIndexOutOfBoundsFlag rawId s
  | none => s

theorem mask_eq_two_pow {w : Nat} (hw : w < 6) :
    g_RawAccessOutOfBoundsMask w = 2 ^ w := by
  interval_cases w <;> rfl

theorem isIndexOutOfBounds_eq_testBit {w : Nat} (hw : w < 6) (s : RawState) :
    isIndexOutOfBounds w s = s.g_RawIndexPastEnd.testBit w := by
  unfold isIndexOutOfBounds
  rw [mask_eq_two_pow hw, Nat.and_two_pow]
  cases h : s.g_RawIndexPastEnd.testBit w <;> simp [h, Nat.pos_pow_of_pos]

theorem testBit_setFlag_self {w : Nat} (hw : w < 6) (s : RawState) :
    (SetIndexOutOfBoundsFlag w s).g_RawIndexPastEnd.testBit w = true := by
  unfold SetIndexOutOfBoundsFlag
  rw [mask_eq_two_pow hw]
  simp only [Nat.testBit_land, Nat.testBit_lor, Nat.testBit_two_pow_self]
  have h255 : (0xff : Nat) = 2 ^ 8 - 1 := by norm_num
  rw [h255, Nat.testBit_two_pow_sub_one]
  simp only [Bool.or_true, Bool.true_and]
  exact decide_eq_true (by omega)

theorem testBit_clearFlag_self {w : Nat} (hw : w < 6) (s : RawState) :
    (ClearIndexOutOfBoundsFlag w s).g_RawIndexPastEnd.testBit w = false := by
  unfold ClearIndexOutOfBoundsFlag
  rw [mask_eq_two_pow hw]
  simp only [Nat.testBit_land, Nat.testBit_xor, Nat.testBit_two_pow_self]
  have h255 : (0xff : Nat) = 2 ^ 8 - 1 := by norm_num
  rw [h255, Nat.testBit_two_pow_sub_one]
  have : decide (w < 8) = true := decide_eq_true (by omega)
  simp [this]

theorem testBit_setFlag_other {r w : Nat} (hw : w < 6) (hrw : r ≠ w)
    (s : RawState) :
    (SetIndexOutOfBoundsFlag r s).g_RawIndexPastEnd.testBit w =
      s.g_RawIndexPastEnd.testBit w := by
  unfold SetIndexOutOfBoundsFlag
  have hmask : (g_RawAccessOutOfBoundsMask r).testBit w = false := by
    by_cases hr : r < 6
    · rw [mask_eq_two_pow hr]
      exact Nat.testBit_two_pow_of_ne hrw
    · obtain ⟨k, rfl⟩ : ∃ k, r = k + 6 := ⟨r - 6, by omega⟩
      have : g_RawAccessOutOfBoundsMask (k + 6) = 0 := rfl
      simp [this]
  have h255 : (0xff : Nat) = 2 ^ 8 - 1 := by norm_num
  simp only [Nat.testBit_land, Nat.testBit_lor, hmask, Bool.or_false]
  rw [h255, Nat.testBit_two_pow_sub_one]
  have : decide (w < 8) = true := decide_eq_true (by omega)
  simp [this]

theorem testBit_clearFlag_other {r w : Nat} (hw : w < 6) (hrw : r ≠ w)
    (s : RawState) :
    (ClearIndexOutOfBoundsFlag r s).g_RawIndexPastEnd.testBit w =
      s.g_RawIndexPastEnd.testBit w := by
  unfold ClearIndexOutOfBoundsFlag
  have hmask : (g_RawAccessOutOfBoundsMask r).testBit w = false := by
    by_cases hr : r < 6
    · rw [mask_eq_two_pow hr]
      exact Nat.testBit_two_pow_of_ne hrw
    · obtain ⟨k, rfl⟩ : ∃ k, r = k + 6 := ⟨r - 6, by omega⟩
      have : g_RawAccessOutOfBoundsMask (k + 6) = 0 := rfl
      simp [this]
  have h255 : (0xff : Nat) = 2 ^ 8 - 1 := by norm_num
  simp only [Nat.testBit_land, Nat.testBit_xor, hmask]
  rw [h255, Nat.testBit_two_pow_sub_one]
  have : decide (w < 8) = true := decide_eq_true (by omega)
  simp [this]

/-- The 16-bit control value built by `RawMove` (its four `ctrlVal`
statements): destination bit `0x8000` when `rawIsDestination`, the pool
selector shifted into the upper byte (the shift of the promoted
`u_int16_t` is truncated on the 16-bit store), bits 11:8 of `size`, and
the low byte of `size`. -/
def rawMoveCtrlVal (srcDest : Nat) (rawIsDestination : Bool) (size : Nat) :
    Nat :=
  let c0 : Nat := if rawIsDestination then 0x8000 else 0
  let c1 : Nat := c0 ||| ((srcDest <<< 8) &&& 0xffff)
  let c2 : Nat := c1 ||| (((size >>> 8) &&& 0x0f) <<< 8)
  c2 ||| (size &&& 0x00ff)

/-- Outcome of the polling loop in `WaitForRawMoveComplete`. -/
inductive WaitOutcome where
  | gotInterrupt
  | timedOut
deriving DecidableEq, Repr

/-- The polling loop of `WaitForRawMoveComplete`: each iteration reads
the 8-bit host interrupt register (`intr`) and, failing a match with
`intMask`, checks `mrf_timer_elapsed(start_time) > 20`.  On a match the
raw interrupt bits are cleared and the loop exits; on timeout a
diagnostic is printed and the loop exits.  An undecided list yields
`none` (no real execution, as elapsed time grows without bound). -/
def waitPollLoop (intMask : Nat) : List (Nat × Nat) → Option WaitOutcome
  | [] => none
  | (intr, elapsed) :: rest =>
    if intr &&& intMask ≠ 0 then some .gotInterrupt
    else if 20 < elapsed then some .timedOut
    else waitPollLoop intMask rest

/-- Interrupt mask selection at the top of `WaitForRawMoveComplete`:
windows 0 and 1 use their individual bit; windows ≥ 2 use the shared
`INTR_INT2` bit. -/
def waitIntMask (rawId : Nat) : Nat :=
  if rawId ≤ 1 then (if rawId = 0 then INTR_RAW0 else INTR_RAW1)
  else INTR_INT2

/-- Result of `WaitForRawMoveComplete`: the loop outcome, whether the
timeout diagnostic was printed, and the returned byte count. -/
structure WaitResult where
  outcome : Option WaitOutcome
  timeoutLogged : Bool
  nbytes : Nat
deriving DecidableEq, Repr

/-- `WaitForRawMoveComplete(rawId)`: polls the host interrupt register
until the move-complete interrupt for `rawId` fires or 20 time units
elapse, then — in either case — reads the window's CTRL1 (byte count)
register and returns the value.  `ctrl1Value` is the value that final
register read yields; the timeout diagnostic is printed exactly when
the loop exits through the timeout branch. -/
def WaitForRawMoveComplete (rawId : Nat) (polls : List (Nat × Nat))
    (ctrl1Value : Nat) : WaitResult :=
  let outcome := waitPollLoop (waitIntMask rawId) polls
  { outcome := outcome
    timeoutLogged := outcome = some .timedOut
    nbytes := ctrl1Value }

/-- Execution trace of one `RawMove(rawId, srcDest, rawIsDestination,
size)` call.  `savedIntEnabled` is what `mrf_intr_disable()` returned at
entry; `intrEnabledDuringWait` is the interrupt-enable state during
`WaitForRawMoveComplete` (after the `mrf_intr_enable()` call);
`intrEnabledAtExit` is the state after the conditional
`mrf_intr_disable()` at the end; `ctrlVal` is the value written to the
window's CTRL0 register; `wait` is the completion wait's result and
`nbytes` the function's return value. -/
structure RawMoveTrace where
  savedIntEnabled : Bool
  intrEnabledDuringWait : Bool
  intrEnabledAtExit : Bool
  ctrlVal : Nat
  wait : WaitResult
  nbytes : Nat
deriving DecidableEq, Repr

/-- `RawMove`: saves and disables the external interrupt, builds the
control value, pre-clears the window's move-complete interrupt bit
(hardware-only write), writes the control value to CTRL0 (hardware-only
write), re-enables interrupts, waits for completion, then re-disables
interrupts exactly when they were disabled at entry, and returns the
byte count read by the wait.  `intrEnabledAtEntry` is the
interrupt-enable state when the function is called; `polls` and
`ctrl1Value` feed `WaitForRawMoveComplete`. -/
def RawMove (rawId srcDest : Nat) (rawIsDestination : Bool) (size : Nat)
    (intrEnabledAtEntry : Bool) (polls : List (Nat × Nat))
    (ctrl1Value : Nat) : RawMoveTrace :=
  let intEnabled := intrEnabledAtEntry
  let ctrlVal := rawMoveCtrlVal srcDest rawIsDestination size
  let w := WaitForRawMoveComplete rawId polls ctrl1Value
  { savedIntEnabled := intEnabled
    intrEnabledDuringWait := true
    intrEnabledAtExit := if ! intEnabled then false else true
    ctrlVal := ctrlVal
    wait := w
    nbytes := w.nbytes }

/-- One `RawMove` invocation as recorded by the allocation-layer
functions: the arguments the caller passes. -/
structure MoveCall where
  rawId : Nat
  srcDest : Nat
  rawIsDestination : Bool
  size : Nat
deriving DecidableEq, Repr

/-- `AllocateMgmtTxBuffer(bytesNeeded)`: reads the management pool's
FIFO byte counter (`bcnt1` is the raw register value), masks it, and
— if enough bytes are available — issues the allocation move
(management pool as destination onto the management-Tx window, sized
`bytesNeeded`); `moveNBytes` is that move's return value.  A zero
return reports failure; otherwise the management-Tx window's
out-of-bounds flag is cleared and success is reported.  If not enough
bytes are available and the counter is nonzero, a release move (size 0,
window not destination) is issued and failure reported.  Returns
(result, issued moves, new state). -/
def AllocateMgmtTxBuffer (bcnt1 bytesNeeded moveNBytes : Nat)
    (s : RawState) : Bool × List MoveCall × RawState :=
  let bufAvail := bcnt1 &&& FIFO_BCNT_MASK
  if bytesNeeded ≤ bufAvail then
    let call : MoveCall := ⟨RAW_MGMT_TX_ID, RAW_MGMT_POOL, true, bytesNeeded⟩
    if moveNBytes = 0 then (false, [call], s)
    else (true, [call], ClearIndexOutOfBoundsFlag RAW_MGMT_TX_ID s)
  else
    if 0 < bufAvail then
      (false, [⟨RAW_MGMT_RX_ID, RAW_MGMT_POOL, false, 0⟩], s)
    else
      (false, [], s)

/-- `DeallocateMgmtRxBuffer()`: unconditionally issues the release move
for the management-Rx window; no driver state changes. -/
def DeallocateMgmtRxBuffer (s : RawState) : List MoveCall × RawState :=
  ([⟨RAW_MGMT_RX_ID, RAW_MGMT_POOL, false, 0⟩], s)

/-- `AllocateDataTxBuffer(bytesNeeded)`: reads the data pool's FIFO byte
counter (`bcnt0` is the raw register value), masks it; if insufficient,
reports failure with no move.  Otherwise issues the allocation move
(data pool as destination onto the data-Tx window, sized `bytesNeeded`,
returning `moveNBytes`); zero reports failure, else the data-Tx window
is marked mounted and success reported. -/
def AllocateDataTxBuffer (bcnt0 bytesNeeded moveNBytes : Nat)
    (s : RawState) : Bool × List MoveCall × RawState :=
  let bufAvail := bcnt0 &&& FIFO_BCNT_MASK
  if bufAvail < bytesNeeded then
    (false, [], s)
  else
    let call : MoveCall := ⟨RAW_DATA_TX_ID, RAW_DATA_POOL, true, bytesNeeded⟩
    if moveNBytes = 0 then (false, [call], s)
    else (true, [call],
      SetRawDataWindowState RAW_DATA_TX_ID WF_RAW_DATA_MOUNTED s)

/-- `DeallocateDataRxBuffer()`: marks the data-Rx window unmounted, then
issues the release move for it. -/
def DeallocateDataRxBuffer (s : RawState) : List MoveCall × RawState :=
  ([⟨RAW_DATA_RX_ID, RAW_DATA_POOL, false, 0⟩],
    SetRawDataWindowState RAW_DATA_RX_ID WF_RAW_UNMOUNTED s)

/-- `RawMountRxBuffer(rawId)`: issues the mount move (MAC as source onto
window `rawId`, size 0), whose return value is `moveNBytes`; logs an
anomaly when that length is 0; if `rawId` is the data-Rx window, marks
it mounted.  Returns (length, anomaly-logged, issued moves, new
state). -/
def RawMountRxBuffer (rawId moveNBytes : Nat) (s : RawState) :
    Nat × Bool × List MoveCall × RawState :=
  let call : MoveCall := ⟨rawId, RAW_MAC, true, 0⟩
  let logged := moveNBytes = 0
  let s' :=
    if rawId = RAW_DATA_RX_ID then
      SetRawDataWindowState RAW_DATA_RX_ID WF_RAW_DATA_MOUNTED s
    else s
  (moveNBytes, logged, [call], s')

/-- `SendRAWManagementFrame(bufLen)`: issues the transmit-trigger move;
no driver state changes. -/
def SendRAWManagementFrame (bufLen : Nat) (s : RawState) :
    List MoveCall × RawState :=
  ([⟨RAW_MGMT_TX_ID, RAW_MAC, false, bufLen⟩], s)

/-- The byte transfer performed by `RawSetByte` / `RawGetByte`: the data
register streamed through and the number of bytes transferred. -/
structure Transfer where
  reg : Nat
  length : Nat
deriving DecidableEq, Repr

/-- `RawSetByte(rawId, p_buffer, length)`: if the window's out-of-bounds
flag is set, prints a diagnostic; in all cases writes `length` bytes to
the window's data register.  Returns (diagnostic printed, transfer
performed); driver state is unchanged. -/
def RawSetByte (rawId length : Nat) (s : RawState) : Bool × Transfer :=
  (isIndexOutOfBounds rawId s, ⟨g_RawDataReg rawId, length⟩)

/-- `RawGetByte(rawId, pBuffer, length)`: if the window's out-of-bounds
flag is set, prints a diagnostic; in all cases reads `length` bytes from
the window's data register.  Returns (diagnostic printed, transfer
performed); driver state is unchanged. -/
def RawGetByte (rawId length : Nat) (s : RawState) : Bool × Transfer :=
  (isIndexOutOfBounds rawId s, ⟨g_RawDataReg rawId, length⟩)

/-- One invocation of a module operation, together with the hardware
inputs that determine its behaviour (register reads, poll observations
and the byte counts returned by the `RawMove` calls it makes). -/
inductive ModuleOp where
  | setIndex (rawId index : Nat) (polls : List (Nat × Nat))
  | allocMgmtTx (bcnt1 bytesNeeded moveNBytes : Nat)
  | deallocMgmtRx
  | allocDataTx (bcnt0 bytesNeeded moveNBytes : Nat)
  | deallocDataRx
  | mountRx (rawId moveNBytes : Nat)
  | setByte (rawId length : Nat)
  | getByte (rawId length : Nat)
  | sendMgmtFrame (bufLen : Nat)
deriving DecidableEq, Repr

/-- Effect of one module operation on the module's driver state.
`RawMove` itself touches only hardware and the interrupt line (which it
restores), so the state effect of each operation is exactly what the
corresponding function above computes; `RawSetByte`, `RawGetByte` and
`SendRAWManagementFrame` leave the driver state unchanged. -/
def runOp (op : ModuleOp) (s : RawState) : RawState :=
  match op with
  | .setIndex rawId index polls => RawSetIndex rawId index polls s
  | .allocMgmtTx bcnt1 n nb => (AllocateMgmtTxBuffer bcnt1 n nb s).2.2
  | .deallocMgmtRx => (DeallocateMgmtRxBuffer s).2
  | .allocDataTx bcnt0 n nb => (AllocateDataTxBuffer bcnt0 n nb s).2.2
  | .deallocDataRx => (DeallocateDataRxBuffer s).2
  | .mountRx rawId nb => (RawMountRxBuffer rawId nb s).2.2.2
  | .setByte rawId len => (RawSetByte rawId len s).1 |> fun _ => s
  | .getByte rawId len => (RawGetByte rawId len s).1 |> fun _ => s
  | .sendMgmtFrame bufLen => (SendRAWManagementFrame bufLen s).2

/-- Run a sequence of module operations from a starting state. -/
def runOps (ops : List ModuleOp) (s : RawState) : RawState :=
  match ops with
  | [] => s
  | op :: rest => runOps rest (runOp op s)

/-- The effect one operation has on window `w`'s out-of-bounds flag:
`some true` if it sets the flag, `some false` if it clears it, `none`
if it leaves it alone.  A `setIndex` on `w` sets on timeout and clears
on clean completion (an undecided poll list has no effect, matching the
no-op in `runOp`); a successful `AllocateMgmtTxBuffer` clears the
management-Tx window's flag; no other operation touches the mask. -/
def opFlagEffect (w : Nat) (op : ModuleOp) : Option Bool :=
  match op with
  | .setIndex rawId _ polls =>
    if rawId = w then
      match pollStatus polls with
      | some .completed => some false
      | some .timedOut => some true
      | none => none
    else none
  | .allocMgmtTx bcnt1 n nb =>
    if w = RAW_MGMT_TX_ID ∧ n ≤ bcnt1 &&& FIFO_BCNT_MASK ∧ nb ≠ 0 then
      some false
    else none
  | _ => none

/-- The last flag effect on window `w` in a sequence of operations, if
any. -/
def lastFlagEffect (w : Nat) : List ModuleOp → Option Bool
  | [] => none
  | op :: rest =>
    match lastFlagEffect w rest with
    | some b => some b
    | none => opFlagEffect w op

theorem isIndexOutOfBounds_runOp (w : Nat) (hw : w < 6) (op : ModuleOp)
    (s : RawState) :
    isIndexOutOfBounds w (runOp op s) =
      (opFlagEffect w op).getD (isIndexOutOfBounds w s) := by
  have hself_set : ∀ t, isIndexOutOfBounds w (SetIndexOutOfBoundsFlag w t) = true := by
    intro t
    rw [isIndexOutOfBounds_eq_testBit hw]
    exact testBit_setFlag_self hw t
  have hself_clear : ∀ t, isIndexOutOfBounds w (ClearIndexOutOfBoundsFlag w t) = false := by
    intro t
    rw [isIndexOutOfBounds_eq_testBit hw]
    exact testBit_clearFlag_self hw t
  have hother_set : ∀ r t, r ≠ w →
      isIndexOutOfBounds w (SetIndexOutOfBoundsFlag r t) = isIndexOutOfBounds w t := by
    intro r t hr
    rw [isIndexOutOfBounds_eq_testBit hw, isIndexOutOfBounds_eq_testBit hw]
    exact testBit_setFlag_other hw hr t
  have hother_clear : ∀ r t, r ≠ w →
      isIndexOutOfBounds w (ClearIndexOutOfBoundsFlag r t) = isIndexOutOfBounds w t := by
    intro r t hr
    rw [isIndexOutOfBounds_eq_testBit hw, isIndexOutOfBounds_eq_testBit hw]
    exact testBit_clearFlag_other hw hr t
  have hwin : ∀ rId st t, isIndexOutOfBounds w (SetRawDataWindowState rId st t) =
      isIndexOutOfBounds w t := by
    intro rId st t
    unfold SetRawDataWindowState isIndexOutOfBounds
    split <;> try split
    all_goals rfl
  cases op with
  | setIndex rawId index polls =>
    simp only [runOp, RawSetIndex, opFlagEffect]
    by_cases hr : rawId = w
    · subst hr
      cases hps : pollStatus polls with
      | none => simp [hps]
      | some o => cases o <;> simp [hps, hself_set, hself_clear]
    · cases hps : pollStatus polls with
      | none => simp [hps, hr]
      | some o => cases o <;> simp [hps, hr, hother_set _ _ hr, hother_clear _ _ hr]
  | allocMgmtTx bcnt1 n nb =>
    simp only [runOp, AllocateMgmtTxBuffer, opFlagEffect]
    by_cases havail : n ≤ bcnt1 &&& FIFO_BCNT_MASK
    · by_cases hnb : nb = 0
      · simp [havail, hnb]
      · by_cases hwid : w = RAW_MGMT_TX_ID
        · subst hwid
          simp [havail, hnb, hself_clear]
        · have : RAW_MGMT_TX_ID ≠ w := fun h => hwid h.symm
          simp [havail, hnb, hwid, hother_clear _ _ this]
    · by_cases hpos : 0 < bcnt1 &&& FIFO_BCNT_MASK <;>
        simp [havail, hpos]
  | deallocMgmtRx => simp [runOp, DeallocateMgmtRxBuffer, opFlagEffect]
  | allocDataTx bcnt0 n nb =>
    simp only [runOp, AllocateDataTxBuffer, opFlagEffect]
    by_cases havail : bcnt0 &&& FIFO_BCNT_MASK < n
    · simp [havail]
    · by_cases hnb : nb = 0 <;> simp [havail, hnb, hwin]
  | deallocDataRx => simp [runOp, DeallocateDataRxBuffer, opFlagEffect, hwin]
  | mountRx rawId nb =>
    simp only [runOp, RawMountRxBuffer, opFlagEffect]
    by_cases hr : rawId = RAW_DATA_RX_ID <;> simp [hr, hwin]
  | setByte rawId len => simp [runOp, opFlagEffect]
  | getByte rawId len => simp [runOp, opFlagEffect]
  | sendMgmtFrame bufLen => simp [runOp, SendRAWManagementFrame, opFlagEffect]

theorem isIndexOutOfBounds_runOps (w : Nat) (hw : w < 6)
    (ops : List ModuleOp) (s : RawState) :
    isIndexOutOfBounds w (runOps ops s) =
      (lastFlagEffect w ops).getD (isIndexOutOfBounds w s) := by
  induction ops generalizing s with
  | nil => rfl
  | cons op rest ih =>
    show isIndexOutOfBounds w (runOps rest (runOp op s)) = _
    rw [ih (runOp op s)]
    rw [isIndexOutOfBounds_runOp w hw op s]
    cases hrest : lastFlagEffect w rest with
    | some b => simp [lastFlagEffect, hrest]
    | none =>
      cases hop : opFlagEffect w op <;> simp [lastFlagEffect, hrest, hop]

/-- Whether an operation is a `RawSetIndex` call on window `w`. -/
def isSetIndexOn (w : Nat) : ModuleOp → Bool
  | .setIndex r _ _ => r = w
  | _ => false

/-- Whether an operation is an `AllocateMgmtTxBuffer` call that succeeds
(enough bytes available and a nonzero move result) — the one operation
besides `RawSetIndex` that touches the out-of-bounds mask (it clears the
management-Tx window's bit). -/
def isMgmtTxAllocSuccess : ModuleOp → Bool
  | .allocMgmtTx bcnt1 n nb =>
    n ≤ (bcnt1 &&& FIFO_BCNT_MASK) && nb ≠ 0
  | _ => false

/-- The outcome of the most recent `RawSetIndex` call on window `w` in
an operation sequence, if any (an undecided poll list yields no
outcome). -/
def lastSetIndexOutcome (w : Nat) : List ModuleOp → Option SetIndexOutcome
  | [] => none
  | op :: rest =>
    match lastSetIndexOutcome w rest with
    | some o => some o
    | none =>
      match op with
      | .setIndex r _ polls => if r = w then pollStatus polls else none
      | _ => none

theorem lastFlagEffect_eq_none (w : Nat) (ops : List ModuleOp)
    (h : ∀ op ∈ ops, opFlagEffect w op = none) :
    lastFlagEffect w ops = none := by
  induction ops with
  | nil => rfl
  | cons op rest ih =>
    have hop : opFlagEffect w op = none := h op (List.mem_cons_self op rest)
    have hrest := ih (fun o ho => h o (List.mem_cons_of_mem op ho))
    simp [lastFlagEffect, hrest, hop]

theorem opFlagEffect_none_of_untouched (w : Nat) (op : ModuleOp)
    (h1 : isSetIndexOn w op = false)
    (h2 : w = RAW_MGMT_TX_ID → isMgmtTxAllocSuccess op = false) :
    opFlagEffect w op = none := by
  cases op with
  | setIndex r idx polls =>
    simp only [isSetIndexOn, decide_eq_false_iff_not] at h1
    simp [opFlagEffect, h1]
  | allocMgmtTx bcnt1 n nb =>
    by_cases hw : w = RAW_MGMT_TX_ID
    · have h2' := h2 hw
      simp only [isMgmtTxAllocSuccess, Bool.and_eq_false_iff,
        decide_eq_false_iff_not] at h2'
      rcases h2' with h | h <;> simp [opFlagEffect] <;> intro h' _ <;> omega
    · simp [opFlagEffect, hw]
  | deallocMgmtRx => rfl
  | allocDataTx bcnt0 n nb => rfl
  | deallocDataRx => rfl
  | mountRx rawId nb => rfl
  | setByte rawId len => rfl
  | getByte rawId len => rfl
  | sendMgmtFrame bufLen => rfl

theorem ctrlVal_testBit15 (s : Nat) (d : Bool) (z : Nat) (h2 : s < 0x80) :
    (rawMoveCtrlVal s d z).testBit 15 = d := by
  have hs7 : s.testBit 7 = false := Nat.testBit_lt_two_pow (by norm_num [h2])
  have e1 : Nat.testBit 65535 15 = true := by decide
  have e2 : Nat.testBit 15 7 = false := by decide
  have e3 : Nat.testBit 255 15 = false := by decide
  have e4 : Nat.testBit 32768 15 = true := by decide
  simp only [rawMoveCtrlVal, Nat.testBit_lor, Nat.testBit_land,
    Nat.testBit_shiftLeft]
  cases d <;>
    simp [hs7, e1, e2, e3, e4, Nat.testBit_land]

theorem ctrlVal_selector_bits (s : Nat) (d : Bool) (z : Nat)
    (h1 : s &&& 0x0f = 0) (h2 : s < 0x80) :
    ((rawMoveCtrlVal s d z) >>> 8) &&& 0x70 = s := by
  apply Nat.eq_of_testBit_eq
  intro k
  have hsk : ∀ j, j < 4 → s.testBit j = false := by
    intro j hj
    have h15 : Nat.testBit 15 j = true := by interval_cases j <;> decide
    have : (s &&& 15).testBit j = s.testBit j := by
      simp [Nat.testBit_land, h15]
    rw [← this, h1]
    simp
  have hsk7 : ∀ j, 7 ≤ j → s.testBit j = false := by
    intro j hj
    apply Nat.testBit_lt_two_pow
    calc s < 0x80 := h2
    _ = 2 ^ 7 := by norm_num
    _ ≤ 2 ^ j := Nat.pow_le_pow_right (by norm_num) hj
  simp only [rawMoveCtrlVal, Nat.testBit_land, Nat.testBit_lor,
    Nat.testBit_shiftLeft, Nat.testBit_shiftRight]
  by_cases hk7 : 7 ≤ k
  · have h70 : Nat.testBit 0x70 k = false := by
      apply Nat.testBit_lt_two_pow
      calc (0x70 : Nat) < 2 ^ 7 := by norm_num
      _ ≤ 2 ^ k := Nat.pow_le_pow_right (by norm_num) hk7
    simp [h70, hsk7 k hk7]
  · push_neg at hk7
    by_cases hk4 : k < 4
    · have h70 : Nat.testBit 0x70 k = false := by interval_cases k <;> decide
      simp [h70, hsk k hk4]
    · push_neg at hk4
      have h70 : Nat.testBit 0x70 k = true := by interval_cases k <;> decide
      have h15 : Nat.testBit 15 k = false := by interval_cases k <;> decide
      have h65535 : Nat.testBit 65535 (8 + k) = true := by
        interval_cases k <;> decide
      have h255 : Nat.testBit 255 (8 + k) = false := by
        interval_cases k <;> decide
      have h32768 : Nat.testBit 32768 (8 + k) = false := by
        interval_cases k <;> decide
      have hsub : 8 + k - 8 = k := by omega
      cases d <;>
        simp [h70, h15, h65535, h255, h32768, hsub, Nat.testBit_land]

theorem ctrlVal_size_nibble (s : Nat) (d : Bool) (z : Nat)
    (h1 : s &&& 0x0f = 0) :
    ((rawMoveCtrlVal s d z) >>> 8) &&& 0x0f = (z >>> 8) &&& 0x0f := by
  apply Nat.eq_of_testBit_eq
  intro k
  simp only [rawMoveCtrlVal, Nat.testBit_land, Nat.testBit_lor,
    Nat.testBit_shiftLeft, Nat.testBit_shiftRight]
  by_cases hk4 : k < 4
  · have h15 : Nat.testBit 15 k = true := by interval_cases k <;> decide
    have hsk : s.testBit k = false := by
      have : (s &&& 15).testBit k = s.testBit k := by
        simp [Nat.testBit_land, h15]
      rw [← this, h1]
      simp
    have h65535 : Nat.testBit 65535 (8 + k) = true := by
      interval_cases k <;> decide
    have h255 : Nat.testBit 255 (8 + k) = false := by
      interval_cases k <;> decide
    have h32768 : Nat.testBit 32768 (8 + k) = false := by
      interval_cases k <;> decide
    have hsub : 8 + k - 8 = k := by omega
    cases d <;>
      simp [h15, h65535, h255, h32768, hsub, hsk, Nat.testBit_land]
  · have h15 : Nat.testBit 15 k = false := by
      apply Nat.testBit_lt_two_pow
      calc (15 : Nat) < 2 ^ 4 := by norm_num
      _ ≤ 2 ^ k := Nat.pow_le_pow_right (by norm_num) (by omega)
    simp [h15, Nat.testBit_land]

theorem ctrlVal_low_byte (s : Nat) (d : Bool) (z : Nat) :
    (rawMoveCtrlVal s d z) &&& 0xff = z &&& 0xff := by
  apply Nat.eq_of_testBit_eq
  intro k
  simp only [rawMoveCtrlVal, Nat.testBit_land, Nat.testBit_lor,
    Nat.testBit_shiftLeft, Nat.testBit_shiftRight]
  by_cases hk8 : k < 8
  · have h255 : Nat.testBit 255 k = true := by interval_cases k <;> decide
    have h32768 : Nat.testBit 32768 k = false := by interval_cases k <;> decide
    have h8 : ¬ (8 ≤ k) := by omega
    cases d <;> simp [h255, h32768, h8, Nat.testBit_land]
  · have h255 : Nat.testBit 255 k = false := by
      apply Nat.testBit_lt_two_pow
      calc (255 : Nat) < 2 ^ 8 := by norm_num
      _ ≤ 2 ^ k := Nat.pow_le_pow_right (by norm_num) (by omega)
    simp [h255, Nat.testBit_land]

/-- Claim C1: for every requested size, if the management pool's
reported available byte count (FIFO counter masked) is strictly below
the request, `AllocateMgmtTxBuffer` returns false, leaves the driver
state unchanged, and issues no `RawMove` except — when the available
count is positive — a single release move (size 0, window not the
destination) against the management pool; in particular no move sized
`bytesNeeded` is issued. -/
theorem C1_allocMgmtTx_insufficient (bcnt1 bytesNeeded moveNBytes : Nat)
    (s : RawState) (h : bcnt1 &&& FIFO_BCNT_MASK < bytesNeeded) :
    (AllocateMgmtTxBuffer bcnt1 bytesNeeded moveNBytes s).1 = false ∧
    (AllocateMgmtTxBuffer bcnt1 bytesNeeded moveNBytes s).2.2 = s ∧
    (AllocateMgmtTxBuffer bcnt1 bytesNeeded moveNBytes s).2.1 =
      (if 0 < bcnt1 &&& FIFO_BCNT_MASK
        then [⟨RAW_MGMT_RX_ID, RAW_MGMT_POOL, false, 0⟩]
        else []) ∧
    ∀ m ∈ (AllocateMgmtTxBuffer bcnt1 bytesNeeded moveNBytes s).2.1,
      m.srcDest = RAW_MGMT_POOL ∧ m.rawIsDestination = false ∧
        m.size = 0 ∧ m.size ≠ bytesNeeded := by
  have hle : ¬ bytesNeeded ≤ bcnt1 &&& FIFO_BCNT_MASK := by omega
  by_cases hpos : 0 < bcnt1 &&& FIFO_BCNT_MASK <;>
    simp [AllocateMgmtTxBuffer, hle, hpos] <;> omega

/-- Witness for C1 at `bcnt1 = 30`, `bytesNeeded = 50` (insufficient,
nonzero availability: a single release move). -/
theorem C1_witness :
    (AllocateMgmtTxBuffer 30 50 0 initRawState).1 = false ∧
    (AllocateMgmtTxBuffer 30 50 0 initRawState).2.2 = initRawState ∧
    (AllocateMgmtTxBuffer 30 50 0 initRawState).2.1 =
      (if 0 < 30 &&& FIFO_BCNT_MASK
        then [⟨RAW_MGMT_RX_ID, RAW_MGMT_POOL, false, 0⟩]
        else []) ∧
    ∀ m ∈ (AllocateMgmtTxBuffer 30 50 0 initRawState).2.1,
      m.srcDest = RAW_MGMT_POOL ∧ m.rawIsDestination = false ∧
        m.size = 0 ∧ m.size ≠ 50 :=
  C1_allocMgmtTx_insufficient 30 50 0 initRawState (by decide)

/-- Claim C2 as stated is false: after the sequence [`RawSetIndex` on
the management-Tx window that times out, successful
`AllocateMgmtTxBuffer`], the most recent index-set on that window timed
out (so the claim requires the flag set), but `AllocateMgmtTxBuffer`'s
success path cleared it. -/
theorem C2_counterexample :
    lastSetIndexOutcome RAW_MGMT_TX_ID
        [ModuleOp.setIndex RAW_MGMT_TX_ID 100 [(1, 6)],
          ModuleOp.allocMgmtTx 100 50 50] = some SetIndexOutcome.timedOut ∧
    isIndexOutOfBounds RAW_MGMT_TX_ID
        (runOps
          [ModuleOp.setIndex RAW_MGMT_TX_ID 100 [(1, 6)],
            ModuleOp.allocMgmtTx 100 50 50] initRawState) = false := by
  decide

/-- Claim C2 (amended): after any sequence of module operations, the
out-of-bounds flag of window W equals the outcome of the most recent
flag-affecting operation on W — an index-set on W (timeout sets the
flag, clean completion clears it) or, for the management-Tx window
only, a successful `AllocateMgmtTxBuffer` (which clears it) — and
equals its prior state when no such operation occurred. -/
theorem C2_flag_reflects_last_flag_effect (w : Nat) (hw : w < 6)
    (ops : List ModuleOp) (s : RawState) :
    isIndexOutOfBounds w (runOps ops s) =
      (lastFlagEffect w ops).getD (isIndexOutOfBounds w s) :=
  isIndexOutOfBounds_runOps w hw ops s

/-- Witness for C2 (amended) at window 0 and a timed-out index-set. -/
theorem C2_witness :
    isIndexOutOfBounds 0
      (runOps [ModuleOp.setIndex 0 7 [(1, 6)]] initRawState) = true := by
  rw [C2_flag_reflects_last_flag_effect 0 (by decide)
    [ModuleOp.setIndex 0 7 [(1, 6)]] initRawState]
  decide

/-- Claim C3: the 16-bit control value built by `RawMove` has bit 15 set
iff the window is the destination, the pool selector in the upper byte
(its bits land in positions 14:12 for the real selectors, which have a
zero low nibble and are below 0x80), bits 11:8 of `size` in control
bits 11:8, and the low byte of `size` in bits 7:0; and for the
successful allocation of 50 bytes (available = 100), the single move
issued is the management-pool destination move sized 50, whose control
value has the destination flag set, size high nibble 0 and low byte
50. -/
theorem C3_rawMove_ctrlVal_layout (rawId srcDest : Nat) (dest : Bool)
    (size : Nat) (intrEnabledAtEntry : Bool) (polls : List (Nat × Nat))
    (ctrl1Value : Nat)
    (h1 : srcDest &&& 0x0f = 0) (h2 : srcDest < 0x80) :
    (RawMove rawId srcDest dest size intrEnabledAtEntry polls
        ctrl1Value).ctrlVal = rawMoveCtrlVal srcDest dest size ∧
    (rawMoveCtrlVal srcDest dest size).testBit 15 = dest ∧
    ((rawMoveCtrlVal srcDest dest size) >>> 8) &&& 0x70 = srcDest ∧
    ((rawMoveCtrlVal srcDest dest size) >>> 8) &&& 0x0f
      = (size >>> 8) &&& 0x0f ∧
    (rawMoveCtrlVal srcDest dest size) &&& 0xff = size &&& 0xff ∧
    (AllocateMgmtTxBuffer 100 50 50 initRawState).1 = true ∧
    (AllocateMgmtTxBuffer 100 50 50 initRawState).2.1 =
      [⟨RAW_MGMT_TX_ID, RAW_MGMT_POOL, true, 50⟩] ∧
    (rawMoveCtrlVal RAW_MGMT_POOL true 50).testBit 15 = true ∧
    ((rawMoveCtrlVal RAW_MGMT_POOL true 50) >>> 8) &&& 0x0f = 0 ∧
    (rawMoveCtrlVal RAW_MGMT_POOL true 50) &&& 0xff = 50 :=
  ⟨rfl, ctrlVal_testBit15 _ _ _ h2, ctrlVal_selector_bits _ _ _ h1 h2,
    ctrlVal_size_nibble _ _ _ h1, ctrlVal_low_byte _ _ _,
    by decide, by decide, by decide, by decide, by decide⟩

/-- Witness for C3 at the management pool selector, destination move of
50 bytes. -/
theorem C3_witness :
    (RawMove RAW_MGMT_TX_ID RAW_MGMT_POOL true 50 true [] 0).ctrlVal
      = rawMoveCtrlVal RAW_MGMT_POOL true 50 ∧
    (rawMoveCtrlVal RAW_MGMT_POOL true 50).testBit 15 = true ∧
    ((rawMoveCtrlVal RAW_MGMT_POOL true 50) >>> 8) &&& 0x70
      = RAW_MGMT_POOL ∧
    ((rawMoveCtrlVal RAW_MGMT_POOL true 50) >>> 8) &&& 0x0f
      = (50 >>> 8) &&& 0x0f ∧
    (rawMoveCtrlVal RAW_MGMT_POOL true 50) &&& 0xff = 50 &&& 0xff ∧
    (AllocateMgmtTxBuffer 100 50 50 initRawState).1 = true ∧
    (AllocateMgmtTxBuffer 100 50 50 initRawState).2.1 =
      [⟨RAW_MGMT_TX_ID, RAW_MGMT_POOL, true, 50⟩] ∧
    (rawMoveCtrlVal RAW_MGMT_POOL true 50).testBit 15 = true ∧
    ((rawMoveCtrlVal RAW_MGMT_POOL true 50) >>> 8) &&& 0x0f = 0 ∧
    (rawMoveCtrlVal RAW_MGMT_POOL true 50) &&& 0xff = 50 :=
  C3_rawMove_ctrlVal_layout RAW_MGMT_TX_ID RAW_MGMT_POOL true 50 true [] 0
    (by decide) (by decide)

/-- Claim C4: `RawMove` returns with the interrupt-enable state equal to
its state at entry, for both prior-enabled and prior-disabled entry
states; interrupts are enabled during the completion wait, and the
state saved at entry is the entry state. -/
theorem C4_rawMove_restores_interrupt_state (rawId srcDest : Nat)
    (dest : Bool) (size : Nat) (intrEnabledAtEntry : Bool)
    (polls : List (Nat × Nat)) (ctrl1Value : Nat) :
    (RawMove rawId srcDest dest size intrEnabledAtEntry polls
        ctrl1Value).intrEnabledAtExit = intrEnabledAtEntry ∧
    (RawMove rawId srcDest dest size intrEnabledAtEntry polls
        ctrl1Value).intrEnabledDuringWait = true ∧
    (RawMove rawId srcDest dest size intrEnabledAtEntry polls
        ctrl1Value).savedIntEnabled = intrEnabledAtEntry := by
  cases intrEnabledAtEntry <;> exact ⟨rfl, rfl, rfl⟩

/-- Claim C5 as stated is false in its persistence part: after a
timed-out `RawSetIndex` on the management-Tx window the flag is set,
but a subsequent successful `AllocateMgmtTxBuffer` — not an index-set
on that window — clears it. -/
theorem C5_counterexample :
    isIndexOutOfBounds RAW_MGMT_TX_ID
        (RawSetIndex RAW_MGMT_TX_ID 100 [(1, 6)] initRawState) = true ∧
    ([ModuleOp.allocMgmtTx 100 50 50].any
        (isSetIndexOn RAW_MGMT_TX_ID)) = false ∧
    isIndexOutOfBounds RAW_MGMT_TX_ID
        (runOps [ModuleOp.allocMgmtTx 100 50 50]
          (RawSetIndex RAW_MGMT_TX_ID 100 [(1, 6)] initRawState))
      = false := by
  decide

/-- Claim C5 (amended): if `RawSetIndex(W, offset)` observes the busy
bit clear before the 5-time-unit timeout, the out-of-bounds flag of W
is clear at return; if it times out, the flag of W is set at return and
remains set until the next `RawSetIndex` call on W or — when W is the
management-Tx window — a successful `AllocateMgmtTxBuffer`. -/
theorem C5_setIndex_flag_semantics (w idx : Nat) (hw : w < 6)
    (polls : List (Nat × Nat)) (s : RawState) :
    (pollStatus polls = some SetIndexOutcome.completed →
      isIndexOutOfBounds w (RawSetIndex w idx polls s) = false) ∧
    (pollStatus polls = some SetIndexOutcome.timedOut →
      isIndexOutOfBounds w (RawSetIndex w idx polls s) = true ∧
      ∀ ops : List ModuleOp,
        (∀ op ∈ ops, isSetIndexOn w op = false ∧
          (w = RAW_MGMT_TX_ID → isMgmtTxAllocSuccess op = false)) →
        isIndexOutOfBounds w (runOps ops (RawSetIndex w idx polls s))
          = true) := by
  constructor
  · intro hc
    simp only [RawSetIndex, hc]
    rw [isIndexOutOfBounds_eq_testBit hw]
    exact testBit_clearFlag_self hw s
  · intro ht
    have hset : isIndexOutOfBounds w (RawSetIndex w idx polls s) = true := by
      simp only [RawSetIndex, ht]
      rw [isIndexOutOfBounds_eq_testBit hw]
      exact testBit_setFlag_self hw s
    refine ⟨hset, fun ops hops => ?_⟩
    rw [isIndexOutOfBounds_runOps w hw ops _,
      lastFlagEffect_eq_none w ops
        (fun op hop =>
          opFlagEffect_none_of_untouched w op (hops op hop).1
            (hops op hop).2)]
    simpa using hset

/-- Witness for C5 (amended): clean completion clears the flag of
window 0; a timeout sets it and it survives an unrelated operation. -/
theorem C5_witness :
    isIndexOutOfBounds 0 (RawSetIndex 0 3 [(0, 0)] initRawState) = false ∧
    isIndexOutOfBounds 0 (RawSetIndex 0 3 [(1, 6)] initRawState) = true ∧
    isIndexOutOfBounds 0
      (runOps [ModuleOp.deallocDataRx]
        (RawSetIndex 0 3 [(1, 6)] initRawState)) = true := by
  refine ⟨?_, ?_, ?_⟩
  · exact (C5_setIndex_flag_semantics 0 3 (by decide) [(0, 0)]
      initRawState).1 (by decide)
  · exact ((C5_setIndex_flag_semantics 0 3 (by decide) [(1, 6)]
      initRawState).2 (by decide)).1
  · exact ((C5_setIndex_flag_semantics 0 3 (by decide) [(1, 6)]
      initRawState).2 (by decide)).2 [ModuleOp.deallocDataRx] (by decide)

/-- Claim C6: if the move-complete interrupt never arrives within 20
time units, the wait loop logs a timeout diagnostic, no error is
raised, and `RawMove` returns the current value of the window's CTRL1
(byte-count) register as its ordinary result. -/
theorem C6_move_timeout_nonfatal (rawId srcDest : Nat) (dest : Bool)
    (size : Nat) (intrEnabledAtEntry : Bool) (polls : List (Nat × Nat))
    (ctrl1Value : Nat)
    (h : waitPollLoop (waitIntMask rawId) polls
      = some WaitOutcome.timedOut) :
    (WaitForRawMoveComplete rawId polls ctrl1Value).timeoutLogged = true ∧
    (WaitForRawMoveComplete rawId polls ctrl1Value).nbytes = ctrl1Value ∧
    (RawMove rawId srcDest dest size intrEnabledAtEntry polls
        ctrl1Value).nbytes = ctrl1Value := by
  refine ⟨?_, rfl, rfl⟩
  simp [WaitForRawMoveComplete, h]

/-- Witness for C6: the interrupt never fires and 21 time units elapse;
the byte-count register holds 77 and that is the result. -/
theorem C6_witness :
    (WaitForRawMoveComplete 0 [(0, 21)] 77).timeoutLogged = true ∧
    (WaitForRawMoveComplete 0 [(0, 21)] 77).nbytes = 77 ∧
    (RawMove 0 RAW_MGMT_POOL true 5 true [(0, 21)] 77).nbytes = 77 :=
  C6_move_timeout_nonfatal 0 RAW_MGMT_POOL true 5 true [(0, 21)] 77
    (by decide)

/-- Claim C7: `AllocateDataTxBuffer` returning true implies the data-Tx
window mount state is mounted at return, and `DeallocateDataRxBuffer`
always leaves the data-Rx window mount state unmounted regardless of
its prior state. -/
theorem C7_mount_state_postconditions :
    (∀ bcnt0 bytesNeeded moveNBytes s,
      (AllocateDataTxBuffer bcnt0 bytesNeeded moveNBytes s).1 = true →
      GetRawDataWindowState RAW_DATA_TX_ID
          (AllocateDataTxBuffer bcnt0 bytesNeeded moveNBytes s).2.2
        = WF_RAW_DATA_MOUNTED) ∧
    (∀ s, GetRawDataWindowState RAW_DATA_RX_ID
        (DeallocateDataRxBuffer s).2 = WF_RAW_UNMOUNTED) := by
  constructor
  · intro bcnt0 n nb s h
    by_cases ha : bcnt0 &&& FIFO_BCNT_MASK < n
    · simp [AllocateDataTxBuffer, ha] at h
    · by_cases hnb : nb = 0
      · simp [AllocateDataTxBuffer, ha, hnb] at h
      · simp [AllocateDataTxBuffer, ha, hnb, GetRawDataWindowState,
          SetRawDataWindowState, RAW_DATA_TX_ID, WF_RAW_DATA_MOUNTED]
  · intro s
    simp [DeallocateDataRxBuffer, GetRawDataWindowState,
      SetRawDataWindowState, RAW_DATA_RX_ID, WF_RAW_UNMOUNTED]

/-- Witness for C7: a successful 50-byte allocation from 100 available
mounts the data-Tx window; deallocation unmounts the data-Rx window. -/
theorem C7_witness :
    GetRawDataWindowState RAW_DATA_TX_ID
        (AllocateDataTxBuffer 100 50 50 initRawState).2.2
      = WF_RAW_DATA_MOUNTED ∧
    GetRawDataWindowState RAW_DATA_RX_ID
        (DeallocateDataRxBuffer initRawState).2 = WF_RAW_UNMOUNTED :=
  ⟨C7_mount_state_postconditions.1 100 50 50 initRawState (by decide),
    C7_mount_state_postconditions.2 initRawState⟩

/-- Claim C8: if the out-of-bounds flag of a window is set when a byte
write or byte read on it is invoked, a diagnostic is emitted but the
transfer of all `length` bytes through the window's data register is
still performed. -/
theorem C8_out_of_bounds_transfer_proceeds (rawId length : Nat)
    (s : RawState) (h : isIndexOutOfBounds rawId s = true) :
    RawSetByte rawId length s = (true, ⟨g_RawDataReg rawId, length⟩) ∧
    RawGetByte rawId length s = (true, ⟨g_RawDataReg rawId, length⟩) := by
  simp [RawSetByte, RawGetByte, h]

/-- Witness for C8 at window 0 with its flag bit set and a 9-byte
transfer. -/
theorem C8_witness :
    RawSetByte 0 9
        { g_RawIndexPastEnd := 1, rawRxWindowState := 0,
          rawTxWindowState := 0 }
      = (true, ⟨g_RawDataReg 0, 9⟩) ∧
    RawGetByte 0 9
        { g_RawIndexPastEnd := 1, rawRxWindowState := 0,
          rawTxWindowState := 0 }
      = (true, ⟨g_RawDataReg 0, 9⟩) :=
  C8_out_of_bounds_transfer_proceeds 0 9
    { g_RawIndexPastEnd := 1, rawRxWindowState := 0,
      rawTxWindowState := 0 } (by decide)

/-- Claim C9: `RawMountRxBuffer` on the data-Rx window sets the data-Rx
mount state to mounted unconditionally, returns the move's length, and
in the anomalous zero-length case only logs (the window is still marked
mounted, as the mount-state conjunct instantiated at length 0 shows). -/
theorem C9_mountRx_unconditional_mount (moveNBytes : Nat) (s : RawState) :
    GetRawDataWindowState RAW_DATA_RX_ID
        (RawMountRxBuffer RAW_DATA_RX_ID moveNBytes s).2.2.2
      = WF_RAW_DATA_MOUNTED ∧
    (RawMountRxBuffer RAW_DATA_RX_ID moveNBytes s).1 = moveNBytes ∧
    (RawMountRxBuffer RAW_DATA_RX_ID 0 s).2.1 = true :=
  ⟨rfl, rfl, rfl⟩

/-- Claim C10: a `RawSetIndex` call on window W leaves the out-of-bounds
flag of every other window unchanged, whichever way the call
completes. -/
theorem C10_setIndex_other_window_frame (w w' idx : Nat) (hw : w < 6)
    (hw' : w' < 6) (hne : w ≠ w') (polls : List (Nat × Nat))
    (s : RawState) :
    isIndexOutOfBounds w' (RawSetIndex w idx polls s)
      = isIndexOutOfBounds w' s := by
  cases hps : pollStatus polls with
  | none => simp [RawSetIndex, hps]
  | some o =>
    cases o with
    | completed =>
      simp only [RawSetIndex, hps]
      rw [isIndexOutOfBounds_eq_testBit hw',
        isIndexOutOfBounds_eq_testBit hw']
      exact testBit_clearFlag_other hw' hne s
    | timedOut =>
      simp only [RawSetIndex, hps]
      rw [isIndexOutOfBounds_eq_testBit hw',
        isIndexOutOfBounds_eq_testBit hw']
      exact testBit_setFlag_other hw' hne s

/-- Witness for C10: a timed-out index-set on window 0 leaves the flag
of window 1 unchanged. -/
theorem C10_witness :
    isIndexOutOfBounds 1 (RawSetIndex 0 7 [(1, 6)] initRawState)
      = isIndexOutOfBounds 1 initRawState :=
  C10_setIndex_other_window_frame 0 1 7 (by decide) (by decide)
    (by decide) [(1, 6)] initRawState
